import Mathlib

/-!
Verification development for the ParkPal repository (React Native / Firebase
marketplace for parking spaces).  The definitions below are shallow embeddings
of the TypeScript functions of the repository: strings are modelled as lists
of Unicode code points (`JStr`), timestamps as integers (milliseconds since
the epoch, the value of `Date.getTime()`), monetary quantities as rationals,
and the Firestore collections touched by an operation as explicit lists that
the operation transforms.
-/

namespace ParkPal

/-- JavaScript strings, modelled as lists of Unicode code points. -/
abbrev JStr := List Nat

/-- Code-point-level uppercasing, mirroring what `String.prototype.toUpperCase`
does on the basic latin range (`a`..`z` map to `A`..`Z`, everything else in
that range is fixed). -/
def upCode (n : Nat) : Nat :=
  if 97 ≤ n ∧ n ≤ 122 then n - 32 else n

/-- The whitespace class of the JavaScript regular expression `\s`
(space, tab, line feed, vertical tab, form feed, carriage return). -/
def isWsCode (n : Nat) : Bool :=
  n = 32 || n = 9 || n = 10 || n = 11 || n = 12 || n = 13

/-- `s.replace(/\s/g, '')`: remove every whitespace code point. -/
def stripWs (s : JStr) : JStr :=
  s.filter (fun c => !isWsCode c)

/-- `s.toUpperCase()` on the basic latin range. -/
def upStr (s : JStr) : JStr :=
  s.map upCode

/-- `s.toUpperCase().replace(/\s/g, '')`: the plate normalization used by
`verifyLicensePlateForBooking` and `createLicensePlateVerification` in
`lib/licensePlateVerification.ts`. -/
def normalizePlate (s : JStr) : JStr :=
  stripWs (upStr s)

theorem upCode_upCode (n : Nat) : upCode (upCode n) = upCode n := by
  unfold upCode
  by_cases h : 97 ≤ n ∧ n ≤ 122
  · rw [if_pos h]
    rw [if_neg (show ¬ (97 ≤ n - 32 ∧ n - 32 ≤ 122) by omega)]
  · rw [if_neg h, if_neg h]

theorem isWsCode_upCode (n : Nat) : isWsCode (upCode n) = isWsCode n := by
  unfold upCode isWsCode
  by_cases h : 97 ≤ n ∧ n ≤ 122
  · simp only [h, if_pos]
    have hne : n - 32 ≠ 32 ∧ n - 32 ≠ 9 ∧ n - 32 ≠ 10 ∧ n - 32 ≠ 11 ∧ n - 32 ≠ 12 ∧
        n - 32 ≠ 13 ∧ n ≠ 32 ∧ n ≠ 9 ∧ n ≠ 10 ∧ n ≠ 11 ∧ n ≠ 12 ∧ n ≠ 13 := by omega
    obtain ⟨a1, a2, a3, a4, a5, a6, b1, b2, b3, b4, b5, b6⟩ := hne
    simp [a1, a2, a3, a4, a5, a6, b1, b2, b3, b4, b5, b6]
  · simp [h]

theorem upStr_upStr (s : JStr) : upStr (upStr s) = upStr s := by
  unfold upStr
  rw [List.map_map]
  exact List.map_congr_left (fun n _ => upCode_upCode n)

theorem stripWs_upStr_comm (s : JStr) :
    stripWs (upStr s) = upStr (stripWs s) := by
  unfold stripWs upStr
  rw [List.filter_map]
  congr 1
  apply List.filter_congr
  intro a _
  simp only [Function.comp_apply]
  rw [isWsCode_upCode]

theorem stripWs_stripWs (s : JStr) : stripWs (stripWs s) = stripWs s := by
  unfold stripWs
  rw [List.filter_filter]
  simp

/-- Claim C9 — the plate normalization of `lib/licensePlateVerification.ts`
(uppercase, then strip whitespace) is idempotent: for every string `p`,
`normalizePlate (normalizePlate p) = normalizePlate p`. -/
theorem normalizePlate_idempotent (p : JStr) :
    normalizePlate (normalizePlate p) = normalizePlate p := by
  unfold normalizePlate
  rw [stripWs_upStr_comm (stripWs (upStr p)), stripWs_stripWs, stripWs_upStr_comm,
    upStr_upStr]

/-! ## The Overlap Checker (claim C1)

`getOverlappingBookings` lives in `lib/bookings.ts`, which is not among the
analyzed sources (only its caller `handleBooking` is).  Its interval predicate
is therefore modelled from the spec. -/

/-- A half-open booking interval `[start_time, end_time)` on a listing,
timestamps in milliseconds. -/
structure Interval where
  start_time : Int
  end_time : Int
deriving DecidableEq, Repr

/-- Modelled from the spec: the interval-intersection predicate used by
`getOverlappingBookings` in `lib/bookings.ts` (absent from the analyzed
sources).  Per the spec, two intervals intersect exactly when
`existing.start < candidate.end AND existing.end > candidate.start`. -/
def overlaps (existing candidate : Interval) : Bool :=
  decide (existing.start_time < candidate.end_time) &&
    decide (existing.end_time > candidate.start_time)

/-- Claim C1 — the overlap predicate is symmetric
(`overlaps A B = overlaps B A`), and intervals that merely touch
(`A.end_time = B.start_time`) never overlap. -/
theorem overlaps_symm_touching (A B : Interval) :
    overlaps A B = overlaps B A ∧
      (A.end_time = B.start_time → overlaps A B = false) := by
  constructor
  · unfold overlaps
    by_cases h1 : A.start_time < B.end_time <;>
      by_cases h2 : A.end_time > B.start_time <;>
        simp [h1, h2]
  · intro h
    unfold overlaps
    simp [h]

/-- Witness for C1: booking 09:00–10:00 against candidate 10:00–11:00
(minutes rendered as milliseconds from midnight): the symmetry equation holds
and, the intervals being touching, they do not overlap. -/
theorem overlaps_symm_touching_witness :
    overlaps ⟨32400000, 36000000⟩ ⟨36000000, 39600000⟩ =
        overlaps ⟨36000000, 39600000⟩ ⟨32400000, 36000000⟩ ∧
      overlaps ⟨32400000, 36000000⟩ ⟨36000000, 39600000⟩ = false :=
  ⟨(overlaps_symm_touching ⟨32400000, 36000000⟩ ⟨36000000, 39600000⟩).1,
    (overlaps_symm_touching ⟨32400000, 36000000⟩ ⟨36000000, 39600000⟩).2 rfl⟩

/-! ## Booking creation (`handleBooking` in `app/listing/[id].tsx`, claims C2, C3) -/

/-- Status of a booking document (`bookings` collection). -/
inductive BookingStatus
  | pending
  | confirmed
  | cancelled
  | completed
deriving DecidableEq, Repr

/-- The listing data used by `handleBooking` (after `loadListing` has applied
its defaults, so `price_per_hour` is always present). -/
structure Listing where
  id : String
  title : String
  user_id : String
  price_per_hour : ℚ
deriving DecidableEq, Repr

/-- A license plate selected for the booking (interface `LicensePlate` of the
listing-detail screen). -/
structure LicensePlate where
  id : String
  plateNumber : JStr
  state : JStr
  isDefault : Bool
deriving DecidableEq, Repr

/-- The `bookingData` payload assembled by `handleBooking`. -/
structure BookingData where
  listing_id : String
  listing_title : String
  user_id : String
  host_id : String
  start_time : Int
  end_time : Int
  total_price : ℚ
  status : BookingStatus
  license_plate : JStr
  license_plate_state : JStr
deriving DecidableEq, Repr

/-- What the booking-creation flow does: either an early-return alert
(no booking written) or a booking created with the given payload. -/
inductive BookingOutcome
  | notSignedIn
  | noTimeSlot
  | noPlate
  | invalidTime
  | slotTaken
  | created (b : BookingData)
deriving DecidableEq, Repr

/-- `handleBooking` from the listing-detail screen.  `user` is the auth
context user id, `slot` the parsed start/end timestamps of the selected time
slot (ms), and `overlapQuery` the outcome of the remote
`getOverlappingBookings` call: `.ok` with the list of intersecting bookings,
or `.error` when the query itself throws.  The `catch` branch of the source
logs the error and falls through to `createBooking` (fail-open). -/
def handleBooking (user : Option String) (slot : Option (Int × Int))
    (selectedLicensePlate : Option LicensePlate) (listing : Listing)
    (overlapQuery : Except String (List BookingData)) : BookingOutcome :=
  match user with
  | none => .notSignedIn
  | some uid =>
    match slot with
    | none => .noTimeSlot
    | some (startDate, endDate) =>
      match selectedLicensePlate with
      | none => .noPlate
      | some plate =>
        if startDate ≥ endDate then .invalidTime
        else
          let durationInHours : ℚ := ((endDate - startDate : Int) : ℚ) / (1000 * 60 * 60)
          let totalPrice : ℚ := durationInHours * listing.price_per_hour
          let bookingData : BookingData :=
            { listing_id := listing.id
              listing_title := listing.title
              user_id := uid
              host_id := listing.user_id
              start_time := startDate
              end_time := endDate
              total_price := totalPrice
              status := .pending
              license_plate := plate.plateNumber
              license_plate_state := plate.state }
          match overlapQuery with
          | .ok overlappingBookings =>
            if overlappingBookings.length > 0 then .slotTaken
            else .created bookingData
          | .error _ => .created bookingData

/-- Sample plate for concrete witnesses: plate `ABC123`, state `CA`. -/
def samplePlate : LicensePlate :=
  { id := "1", plateNumber := [65, 66, 67, 49, 50, 51], state := [67, 65],
    isDefault := true }

/-- Sample listing for concrete witnesses: $10 per hour. -/
def sampleListing : Listing :=
  { id := "L1", title := "Driveway", user_id := "host1", price_per_hour := 10 }

/-- Claim C2 — in the booking-creation flow, an overlap query that succeeds
with at least one intersecting booking rejects the request (no booking
written), while a failing overlap query falls through and the booking is
created anyway (fail-open). -/
theorem handleBooking_overlap_policy (uid : String) (s e : Int)
    (plate : LicensePlate) (listing : Listing) (h : s < e) :
    (∀ l : List BookingData, l ≠ [] →
        handleBooking (some uid) (some (s, e)) (some plate) listing (.ok l) =
          .slotTaken) ∧
    (∀ err : String, ∃ b : BookingData,
        handleBooking (some uid) (some (s, e)) (some plate) listing (.error err) =
          .created b ∧ b.status = .pending) := by
  constructor
  · intro l hl
    have hlen : 0 < l.length := List.length_pos.mpr hl
    simp only [handleBooking]
    rw [if_neg (show ¬ s ≥ e from not_le.mpr h), if_pos hlen]
  · intro err
    simp only [handleBooking]
    rw [if_neg (show ¬ s ≥ e from not_le.mpr h)]
    exact ⟨_, rfl, rfl⟩

/-- Witness for C2: a 09:30–10:30 request against an existing 09:00–10:00
booking is rejected, and the same request goes through when the overlap query
fails. -/
theorem handleBooking_overlap_policy_witness :
    (handleBooking (some "driver1") (some (34200000, 37800000)) (some samplePlate)
        sampleListing
        (.ok [{ listing_id := "L1", listing_title := "Driveway",
                user_id := "driver0", host_id := "host1",
                start_time := 32400000, end_time := 36000000, total_price := 10,
                status := .pending, license_plate := [65], license_plate_state := [67, 65] }]) =
      .slotTaken) ∧
    (∃ b : BookingData,
      handleBooking (some "driver1") (some (34200000, 37800000)) (some samplePlate)
          sampleListing (.error "store unavailable") = .created b ∧
        b.status = .pending) :=
  ⟨(handleBooking_overlap_policy "driver1" 34200000 37800000 samplePlate sampleListing
      (by decide)).1 _ (by decide),
    (handleBooking_overlap_policy "driver1" 34200000 37800000 samplePlate sampleListing
      (by decide)).2 "store unavailable"⟩

/-- Claim C3 — every booking created by the flow has status `pending` and a
total price equal to the interval duration in hours times the listing's
hourly price. -/
theorem handleBooking_pending_price (uid : String) (s e : Int)
    (plate : LicensePlate) (listing : Listing)
    (q : Except String (List BookingData)) (h : s < e) :
    ∀ b : BookingData,
      handleBooking (some uid) (some (s, e)) (some plate) listing q = .created b →
        b.status = .pending ∧
          b.total_price = ((e - s : Int) : ℚ) / (1000 * 60 * 60) * listing.price_per_hour := by
  intro b hb
  match q with
  | .ok l =>
    simp only [handleBooking] at hb
    rw [if_neg (show ¬ s ≥ e from not_le.mpr h)] at hb
    by_cases hlen : 0 < l.length
    · rw [if_pos (show l.length > 0 from hlen)] at hb
      cases hb
    · rw [if_neg (show ¬ l.length > 0 from hlen)] at hb
      cases hb
      exact ⟨rfl, rfl⟩
  | .error err =>
    simp only [handleBooking] at hb
    rw [if_neg (show ¬ s ≥ e from not_le.mpr h)] at hb
    cases hb
    exact ⟨rfl, rfl⟩

/-- Witness for C3: a 2.5-hour interval (9 000 000 ms) on the $10/hour sample
listing yields a pending booking whose total price is exactly 25. -/
theorem handleBooking_pending_price_witness :
    ∃ b : BookingData,
      handleBooking (some "driver1") (some (0, 9000000)) (some samplePlate)
          sampleListing (.ok []) = .created b ∧
        b.status = .pending ∧ b.total_price = 25 := by
  refine ⟨_, rfl, ?_⟩
  have h2 := handleBooking_pending_price "driver1" 0 9000000 samplePlate sampleListing
    (.ok []) (by decide) _ rfl
  refine ⟨h2.1, ?_⟩
  rw [h2.2]
  norm_num [sampleListing]

/-! ## The payments library (`lib/payments.ts`, claims C4, C6, C8) -/

/-- Status of a payment document (`payments` collection). -/
inductive PaymentStatus
  | pending
  | processing
  | completed
  | failed
  | refunded
deriving DecidableEq, Repr

/-- Status of a (mock) Stripe payment intent. -/
inductive IntentStatus
  | requires_payment_method
  | requires_confirmation
  | requires_action
  | processing
  | requires_capture
  | canceled
  | succeeded
deriving DecidableEq, Repr

/-- The `PaymentIntent` handle returned to the UI. -/
structure PaymentIntent where
  id : String
  amount : ℚ
  currency : String
  status : IntentStatus
  client_secret : String
deriving DecidableEq, Repr

/-- A document of the `payments` collection. -/
structure PaymentRec where
  id : String
  booking_id : String
  user_id : String
  host_id : String
  amount : ℚ
  currency : String
  status : PaymentStatus
  payment_intent_id : Option String
  payment_method_id : Option String
deriving DecidableEq, Repr

/-- The slice of a `bookings` document that the payments library touches. -/
structure StoredBooking where
  id : String
  host_id : String
  status : BookingStatus
  payment_id : Option String
deriving DecidableEq, Repr

/-- `createPaymentIntent` from `lib/payments.ts`.  `currentUser` is
`auth.currentUser`, `bookings`/`payments` the relevant collections,
`paymentId` the fresh document id produced by `addDoc`, and
`intentId`/`secret` the locally synthesized mock intent id and client secret
(random strings in the source).  Returns the updated `payments` collection
and the returned handle, or the thrown error message. -/
def createPaymentIntent (currentUser : Option String)
    (bookings : List StoredBooking) (payments : List PaymentRec)
    (bookingId : String) (amount : ℚ) (paymentId intentId secret : String) :
    Except String (List PaymentRec × PaymentIntent) :=
  match currentUser with
  | none => .error "User must be authenticated to create payment"
  | some uid =>
    match bookings.find? (fun b => b.id == bookingId) with
    | none => .error "Booking not found"
    | some bookingData =>
      let paymentData : PaymentRec :=
        { id := paymentId
          booking_id := bookingId
          user_id := uid
          host_id := bookingData.host_id
          amount := amount
          currency := "usd"
          status := .pending
          payment_intent_id := none
          payment_method_id := none }
      let mockPaymentIntent : PaymentIntent :=
        { id := intentId
          amount := amount * 100
          currency := "usd"
          status := .requires_payment_method
          client_secret := secret }
      let afterAdd := payments ++ [paymentData]
      let afterUpdate := afterAdd.map (fun p =>
        if p.id == paymentId then { p with payment_intent_id := some intentId } else p)
      .ok (afterUpdate, mockPaymentIntent)

/-- `confirmPayment` from `lib/payments.ts`: finds the payment whose
`payment_intent_id` and `user_id` match, marks it `completed` with the
payment method, and flips the parent booking to `confirmed`.  Returns the
updated collections and the returned payment. -/
def confirmPayment (currentUser : Option String) (payments : List PaymentRec)
    (bookings : List StoredBooking) (paymentIntentId paymentMethodId : String) :
    Except String (List PaymentRec × List StoredBooking × PaymentRec) :=
  match currentUser with
  | none => .error "User must be authenticated to confirm payment"
  | some uid =>
    match payments.filter (fun p =>
        p.payment_intent_id == some paymentIntentId && p.user_id == uid) with
    | [] => .error "Payment not found"
    | paymentDoc :: _ =>
      let updatedPayment : PaymentRec :=
        { paymentDoc with
          status := PaymentStatus.completed
          payment_method_id := some paymentMethodId }
      let payments2 := payments.map (fun p =>
        if p.id == paymentDoc.id then updatedPayment else p)
      let bookings2 := bookings.map (fun b =>
        if b.id == paymentDoc.booking_id then
          { b with status := BookingStatus.confirmed, payment_id := some paymentDoc.id }
        else b)
      .ok (payments2, bookings2, updatedPayment)

/-- Claim C4 — when `confirmPayment` is invoked after client-reported success
and a matching payment record exists, that payment's status becomes
`completed` and the parent booking's status becomes `confirmed`. -/
theorem confirmPayment_completes_and_confirms (uid : String)
    (payments : List PaymentRec) (bookings : List StoredBooking)
    (intentId methodId : String) (pd : PaymentRec) (rest : List PaymentRec)
    (hfind : payments.filter (fun p =>
        p.payment_intent_id == some intentId && p.user_id == uid) = pd :: rest) :
    ∃ payments2 bookings2 ret,
      confirmPayment (some uid) payments bookings intentId methodId =
          .ok (payments2, bookings2, ret) ∧
        ret.status = .completed ∧ ret.payment_method_id = some methodId ∧
        (∀ p ∈ payments2, p.id = pd.id → p.status = .completed) ∧
        (∀ b ∈ bookings2, b.id = pd.booking_id → b.status = .confirmed) := by
  simp only [confirmPayment]
  rw [hfind]
  refine ⟨_, _, _, rfl, rfl, rfl, ?_, ?_⟩
  · intro p hp hid
    obtain ⟨q, hq, rfl⟩ := List.mem_map.mp hp
    by_cases h : q.id = pd.id
    · rw [if_pos (beq_iff_eq.mpr h)]
    · rw [if_neg (fun hc => h (beq_iff_eq.mp hc))] at hid
      exact absurd hid h
  · intro b hb hid
    obtain ⟨q, hq, rfl⟩ := List.mem_map.mp hb
    by_cases h : q.id = pd.booking_id
    · rw [if_pos (beq_iff_eq.mpr h)]
    · rw [if_neg (fun hc => h (beq_iff_eq.mp hc))] at hid
      exact absurd hid h

/-- Sample payment record, already carrying the mock intent id. -/
def samplePayment : PaymentRec :=
  { id := "P1", booking_id := "B1", user_id := "driver1", host_id := "host1",
    amount := 25, currency := "usd", status := .pending,
    payment_intent_id := some "pi_1", payment_method_id := none }

/-- Sample stored booking for concrete witnesses. -/
def sampleStoredBooking : StoredBooking :=
  { id := "B1", host_id := "host1", status := .pending, payment_id := none }

/-- Witness for C4: confirming payment intent `pi_1` on the sample stores
completes the payment and confirms booking `B1`. -/
theorem confirmPayment_completes_and_confirms_witness :
    ∃ payments2 bookings2 ret,
      confirmPayment (some "driver1") [samplePayment] [sampleStoredBooking]
          "pi_1" "stripe_payment_method" = .ok (payments2, bookings2, ret) ∧
        ret.status = .completed ∧
        ret.payment_method_id = some "stripe_payment_method" ∧
        (∀ p ∈ payments2, p.id = samplePayment.id → p.status = .completed) ∧
        (∀ b ∈ bookings2, b.id = samplePayment.booking_id → b.status = .confirmed) :=
  confirmPayment_completes_and_confirms "driver1" [samplePayment]
    [sampleStoredBooking] "pi_1" "stripe_payment_method" samplePayment [] (by decide)

/-- Claim C8 — `createPaymentIntent` throws when the caller is not
authenticated, throws when the booking does not exist, and otherwise records
a `pending` payment for the booking and returns a handle made of an id and a
client secret. -/
theorem createPaymentIntent_contract (bookings : List StoredBooking)
    (payments : List PaymentRec) (bookingId : String) (amount : ℚ)
    (paymentId intentId secret : String) :
    (createPaymentIntent none bookings payments bookingId amount paymentId
        intentId secret = .error "User must be authenticated to create payment") ∧
    (∀ uid, bookings.find? (fun b => b.id == bookingId) = none →
      createPaymentIntent (some uid) bookings payments bookingId amount paymentId
        intentId secret = .error "Booking not found") ∧
    (∀ uid bd, bookings.find? (fun b => b.id == bookingId) = some bd →
      ∃ payments2 intent,
        createPaymentIntent (some uid) bookings payments bookingId amount paymentId
            intentId secret = .ok (payments2, intent) ∧
          intent.id = intentId ∧ intent.client_secret = secret ∧
          ∃ p ∈ payments2, p.id = paymentId ∧ p.status = .pending ∧
            p.booking_id = bookingId ∧ p.amount = amount ∧
            p.payment_intent_id = some intentId) := by
  refine ⟨rfl, ?_, ?_⟩
  · intro uid hnone
    simp only [createPaymentIntent]
    rw [hnone]
  · intro uid bd hfound
    simp only [createPaymentIntent]
    rw [hfound]
    refine ⟨_, _, rfl, rfl, rfl, ?_⟩
    refine ⟨_, List.mem_map.mpr ⟨_, List.mem_append_right payments (List.mem_singleton.mpr rfl), rfl⟩, ?_⟩
    rw [if_pos (beq_iff_eq.mpr rfl)]
    exact ⟨rfl, rfl, rfl, rfl, rfl⟩

/-- Witness for C8: with no authenticated user the call errors; with user
`driver1` and the sample booking present it succeeds and records a pending
payment carrying the intent id. -/
theorem createPaymentIntent_contract_witness :
    (createPaymentIntent none [sampleStoredBooking] [] "B1" 25 "P1" "pi_1" "sec_1" =
        .error "User must be authenticated to create payment") ∧
    (createPaymentIntent (some "driver1") [sampleStoredBooking] [] "missing" 25
        "P1" "pi_1" "sec_1" = .error "Booking not found") ∧
    (∃ payments2 intent,
      createPaymentIntent (some "driver1") [sampleStoredBooking] [] "B1" 25 "P1"
          "pi_1" "sec_1" = .ok (payments2, intent) ∧
        intent.id = "pi_1" ∧ intent.client_secret = "sec_1" ∧
        ∃ p ∈ payments2, p.id = "P1" ∧ p.status = .pending ∧
          p.booking_id = "B1" ∧ p.amount = 25 ∧
          p.payment_intent_id = some "pi_1") :=
  ⟨(createPaymentIntent_contract [sampleStoredBooking] [] "B1" 25 "P1" "pi_1" "sec_1").1,
    (createPaymentIntent_contract [sampleStoredBooking] [] "missing" 25 "P1" "pi_1" "sec_1").2.1
      "driver1" (by decide),
    (createPaymentIntent_contract [sampleStoredBooking] [] "B1" 25 "P1" "pi_1" "sec_1").2.2
      "driver1" sampleStoredBooking (by decide)⟩

/-- `formatAmount` from `lib/payments.ts` renders `amount / 100` as a dollar
figure ("Convert cents to dollars"); this model returns the numeric dollar
value the formatter displays. -/
def formatAmountDollars (amount : ℚ) : ℚ :=
  amount / 100

/-- Claim C6 (refuted on the code) — the booking flow for the $10/hour sample
listing over 2.5 hours produces `total_price = 25` (dollars); that dollar
figure is passed unchanged as the recorded payment `amount`, yet the display
function treats the stored amount as cents and renders `25 / 100 = 0.25`
dollars.  The recorded amount is therefore in dollars, not in minor units,
and is inconsistent with the display conversion. -/
theorem payment_amount_units_mismatch :
    ∃ b : BookingData,
      handleBooking (some "driver1") (some (0, 9000000)) (some samplePlate)
          sampleListing (.ok []) = .created b ∧
        b.total_price = 25 ∧
        ∃ payments2 intent,
          createPaymentIntent (some "driver1") [sampleStoredBooking] [] "B1"
              b.total_price "P1" "pi_1" "sec_1" = .ok (payments2, intent) ∧
            ∃ p ∈ payments2, p.amount = 25 ∧
              formatAmountDollars p.amount = 1 / 4 ∧
              formatAmountDollars p.amount ≠ p.amount := by
  have hprice : ((9000000 - 0 : Int) : ℚ) / (1000 * 60 * 60) * sampleListing.price_per_hour = 25 := by
    norm_num [sampleListing]
  refine ⟨_, rfl, ?_, ?_⟩
  · exact hprice
  · refine ⟨_, _, rfl, ?_⟩
    refine ⟨_, List.mem_map.mpr ⟨_, List.mem_append_right [] (List.mem_singleton.mpr rfl), rfl⟩, ?_⟩
    rw [if_pos (beq_iff_eq.mpr rfl)]
    refine ⟨hprice, ?_, ?_⟩
    · rw [show formatAmountDollars (((9000000 - 0 : Int) : ℚ) / (1000 * 60 * 60) * sampleListing.price_per_hour) = formatAmountDollars 25 from congrArg _ hprice]
      norm_num [formatAmountDollars]
    · rw [show formatAmountDollars (((9000000 - 0 : Int) : ℚ) / (1000 * 60 * 60) * sampleListing.price_per_hour) = formatAmountDollars 25 from congrArg _ hprice, hprice]
      norm_num [formatAmountDollars]

/-! ## License plate verification (`lib/licensePlateVerification.ts`, claims C5, C10) -/

/-- Status of a `license_plate_verifications` document. -/
inductive VerificationStatus
  | pending
  | verified
  | failed
  | disputed
deriving DecidableEq, Repr

/-- Who performed a verification. -/
inductive VerifiedBy
  | host
  | driver
  | system
  | admin
deriving DecidableEq, Repr

/-- How a verification was performed. -/
inductive VerificationMethod
  | manual
  | automatic
  | photo
  | qr_code
deriving DecidableEq, Repr

/-- The `VerificationResult` interface (`confidence` is optional). -/
structure VerificationResult where
  success : Bool
  message : String
  confidence : Option ℚ
deriving DecidableEq, Repr

/-- The comparison core of `verifyLicensePlateForBooking`, after the booking
document has been fetched: `storedPlate`/`storedState` are the booking's
`license_plate`/`license_plate_state`, the other two are the provided values.
Returns the `VerificationResult` and the status written through
`updateLicensePlateVerification` (`none` when the source performs no status
update, as in the partial-match branch). -/
def verifyLicensePlateForBooking (storedPlate storedState provPlate provState : JStr) :
    VerificationResult × Option VerificationStatus :=
  let expectedPlate := normalizePlate storedPlate
  let expectedState := upStr storedState
  let providedPlate := normalizePlate provPlate
  let providedStateUpper := upStr provState
  if expectedPlate = providedPlate ∧ expectedState = providedStateUpper then
    ({ success := true, message := "License plate matches booking",
       confidence := some 1 }, some .verified)
  else if expectedPlate = providedPlate ∧ expectedState ≠ providedStateUpper then
    ({ success := false, message := "License plate matches but state is different",
       confidence := some (1 / 2) }, none)
  else
    ({ success := false, message := "License plate does not match booking",
       confidence := some 0 }, some .failed)

/-- Claim C5 — license-plate verification has exactly three outcomes: full
match succeeds with confidence 1 and writes `verified`; matching plate with a
different state fails with confidence 0.5 and writes no status; a
non-matching plate fails with confidence 0 and writes `failed`. -/
theorem verifyLicensePlate_three_outcomes (sp ss pp ps : JStr) :
    (normalizePlate sp = normalizePlate pp ∧ upStr ss = upStr ps →
      (verifyLicensePlateForBooking sp ss pp ps).1.success = true ∧
      (verifyLicensePlateForBooking sp ss pp ps).1.confidence = some 1 ∧
      (verifyLicensePlateForBooking sp ss pp ps).2 = some .verified) ∧
    (normalizePlate sp = normalizePlate pp ∧ upStr ss ≠ upStr ps →
      (verifyLicensePlateForBooking sp ss pp ps).1.success = false ∧
      (verifyLicensePlateForBooking sp ss pp ps).1.confidence = some (1 / 2) ∧
      (verifyLicensePlateForBooking sp ss pp ps).2 = none) ∧
    (normalizePlate sp ≠ normalizePlate pp →
      (verifyLicensePlateForBooking sp ss pp ps).1.success = false ∧
      (verifyLicensePlateForBooking sp ss pp ps).1.confidence = some 0 ∧
      (verifyLicensePlateForBooking sp ss pp ps).2 = some .failed) := by
  refine ⟨?_, ?_, ?_⟩
  · intro h
    unfold verifyLicensePlateForBooking
    rw [if_pos h]
    exact ⟨rfl, rfl, rfl⟩
  · intro h
    unfold verifyLicensePlateForBooking
    rw [if_neg (fun hc => h.2 hc.2), if_pos h]
    exact ⟨rfl, rfl, rfl⟩
  · intro h
    unfold verifyLicensePlateForBooking
    rw [if_neg (fun hc => h hc.1), if_neg (fun hc => h hc.1)]
    exact ⟨rfl, rfl, rfl⟩

/-- Witness for C5: the spec's two scenarios.  Plate `ABC 123` / state `CA`
against stored `ABC123` / `CA` verifies with confidence 1; the same plate
with state `NY` against stored `CA` fails with confidence 0.5 and writes no
status. -/
theorem verifyLicensePlate_three_outcomes_witness :
    ((verifyLicensePlateForBooking [65, 66, 67, 49, 50, 51] [67, 65]
        [65, 66, 67, 32, 49, 50, 51] [67, 65]).1.success = true ∧
      (verifyLicensePlateForBooking [65, 66, 67, 49, 50, 51] [67, 65]
        [65, 66, 67, 32, 49, 50, 51] [67, 65]).1.confidence = some 1 ∧
      (verifyLicensePlateForBooking [65, 66, 67, 49, 50, 51] [67, 65]
        [65, 66, 67, 32, 49, 50, 51] [67, 65]).2 = some .verified) ∧
    ((verifyLicensePlateForBooking [65, 66, 67, 49, 50, 51] [67, 65]
        [65, 66, 67, 32, 49, 50, 51] [78, 89]).1.success = false ∧
      (verifyLicensePlateForBooking [65, 66, 67, 49, 50, 51] [67, 65]
        [65, 66, 67, 32, 49, 50, 51] [78, 89]).1.confidence = some (1 / 2) ∧
      (verifyLicensePlateForBooking [65, 66, 67, 49, 50, 51] [67, 65]
        [65, 66, 67, 32, 49, 50, 51] [78, 89]).2 = none) :=
  ⟨(verifyLicensePlate_three_outcomes [65, 66, 67, 49, 50, 51] [67, 65]
      [65, 66, 67, 32, 49, 50, 51] [67, 65]).1 (by decide),
    (verifyLicensePlate_three_outcomes [65, 66, 67, 49, 50, 51] [67, 65]
      [65, 66, 67, 32, 49, 50, 51] [78, 89]).2.1 (by decide)⟩

/-- A `license_plate_verifications` document. -/
structure VerificationRec where
  id : String
  booking_id : String
  license_plate : JStr
  license_plate_state : JStr
  verification_status : VerificationStatus
  verified_by : VerifiedBy
  verification_method : VerificationMethod
  verification_notes : Option String
  verified_at : Option String
deriving DecidableEq, Repr

/-- `updateLicensePlateVerification` from `lib/licensePlateVerification.ts`:
scans the whole collection with `forEach`, remembering the id of the *last*
document whose `booking_id` matches, then updates that document's status
fields.  `verified_at` is stamped (with `now`) only for `verified`/`failed`,
and notes are written only when truthy (a non-empty string).  When no
document matches, nothing is written. -/
def updateLicensePlateVerification (records : List VerificationRec)
    (bookingId : String) (status : VerificationStatus) (verifiedBy : VerifiedBy)
    (method : VerificationMethod) (notes : Option String) (now : String) :
    List VerificationRec :=
  match (records.filter (fun r => r.booking_id == bookingId)).getLast? with
  | none => records
  | some target =>
    records.map (fun r =>
      if r.id == target.id then
        { r with
          verification_status := status
          verified_by := verifiedBy
          verification_method := method
          verified_at :=
            if status = .verified ∨ status = .failed then some now else r.verified_at
          verification_notes :=
            match notes with
            | some n => if n ≠ "" then some n else r.verification_notes
            | none => r.verification_notes }
      else r)

/-- `manualLicensePlateVerification` from `lib/licensePlateVerification.ts`:
maps the approval flag to `verified`/`failed` and records
`verified_by = host`, `method = manual`.  The `hostId` argument is accepted
but never used — no authorization check restricts the operation. -/
def manualLicensePlateVerification (records : List VerificationRec)
    (bookingId : String) (isVerified : Bool) (hostId : String)
    (notes : Option String) (now : String) : List VerificationRec :=
  let status := if isVerified then VerificationStatus.verified else VerificationStatus.failed
  updateLicensePlateVerification records bookingId status .host .manual notes now

/-- Claim C10 — manual verification writes `verified` when approved and
`failed` when rejected, always with `verified_by = host`,
`method = manual` and the provided notes; and its result is identical for
every value of the `hostId` argument. -/
theorem manualVerification_contract (records : List VerificationRec)
    (bookingId : String) (isVerified : Bool) (hostA hostB : String)
    (notes : Option String) (now : String) :
    manualLicensePlateVerification records bookingId isVerified hostA notes now =
      manualLicensePlateVerification records bookingId isVerified hostB notes now ∧
    (∀ target, (records.filter (fun r => r.booking_id == bookingId)).getLast? = some target →
      ∀ r ∈ manualLicensePlateVerification records bookingId isVerified hostA notes now,
        r.id = target.id →
          r.verification_status =
              (if isVerified then VerificationStatus.verified else .failed) ∧
            r.verified_by = .host ∧ r.verification_method = .manual ∧
            (∀ n, notes = some n → n ≠ "" → r.verification_notes = some n)) := by
  refine ⟨rfl, ?_⟩
  intro target htarget r hr hid
  simp only [manualLicensePlateVerification, updateLicensePlateVerification] at hr
  rw [htarget] at hr
  obtain ⟨q, hq, rfl⟩ := List.mem_map.mp hr
  by_cases h : q.id = target.id
  · rw [if_pos (beq_iff_eq.mpr h)]
    refine ⟨rfl, rfl, rfl, ?_⟩
    intro n hn hne
    subst hn
    simp only
    rw [if_pos hne]
  · rw [if_neg (fun hc => h (beq_iff_eq.mp hc))] at hid
    exact absurd hid h

/-- Sample verification record for concrete witnesses. -/
def sampleVerification : VerificationRec :=
  { id := "V1", booking_id := "B1", license_plate := [65, 66, 67, 49, 50, 51],
    license_plate_state := [67, 65], verification_status := .pending,
    verified_by := .system, verification_method := .automatic,
    verification_notes := none, verified_at := none }

/-- Witness for C10: approving booking `B1` on the sample store yields the
same store for two different host ids, and the updated record carries
`verified`, `host`, `manual` and the notes. -/
theorem manualVerification_contract_witness :
    (manualLicensePlateVerification [sampleVerification] "B1" true "host1"
        (some "looks right") "t0" =
      manualLicensePlateVerification [sampleVerification] "B1" true "host2"
        (some "looks right") "t0") ∧
    (∀ r ∈ manualLicensePlateVerification [sampleVerification] "B1" true "host1"
        (some "looks right") "t0",
      r.id = sampleVerification.id →
        r.verification_status = .verified ∧ r.verified_by = .host ∧
          r.verification_method = .manual ∧
          r.verification_notes = some "looks right") := by
  have hmain := manualVerification_contract [sampleVerification] "B1" true
    "host1" "host2" (some "looks right") "t0"
  refine ⟨hmain.1, ?_⟩
  intro r hr hid
  have h2 := hmain.2 sampleVerification (by decide) r hr hid
  exact ⟨h2.1, h2.2.1, h2.2.2.1, h2.2.2.2 "looks right" rfl (by decide)⟩

/-! ## License plate management (`components/LicensePlateManager.tsx`, claim C7) -/

/-- The character class of the validation regular expression
`/^[A-Z0-9\-\.]+$/`. -/
def isValidPlateChar (n : Nat) : Bool :=
  decide ((65 ≤ n ∧ n ≤ 90) ∨ (48 ≤ n ∧ n ≤ 57) ∨ n = 45 ∨ n = 46)

/-- `validatePlateNumber` from `LicensePlateManager`: strip whitespace,
uppercase, require 2–8 characters drawn from the valid class. -/
def validatePlateNumber (plate : JStr) : Bool :=
  let cleanPlate := upStr (stripWs plate)
  if cleanPlate.length < 2 ∨ cleanPlate.length > 8 then false
  else cleanPlate.all isValidPlateChar

/-- `addLicensePlate` from `LicensePlateManager`: validates the cleaned
plate, rejects duplicates (same number and state), and appends a new plate
that is default exactly when the list was empty.  `none` models the
early-return alert paths. -/
def addLicensePlate (licensePlates : List LicensePlate) (newId : String)
    (plateNumber : JStr) (selectedState : JStr) : Option (List LicensePlate) :=
  let cleanPlate := upStr (stripWs plateNumber)
  if !validatePlateNumber cleanPlate then none
  else if licensePlates.any (fun p => p.plateNumber == cleanPlate && p.state == selectedState) then none
  else some (licensePlates ++
    [{ id := newId, plateNumber := cleanPlate, state := selectedState,
       isDefault := licensePlates.length == 0 }])

/-- `removeLicensePlate` from `LicensePlateManager` (the confirmed branch):
drops the plate with the given id; if the removed plate was the default and
plates remain, the first remaining plate becomes the default. -/
def removeLicensePlate (licensePlates : List LicensePlate) (plateId : String) :
    List LicensePlate :=
  let updatedPlates := licensePlates.filter (fun p => !(p.id == plateId))
  match licensePlates.find? (fun p => p.id == plateId) with
  | some removedPlate =>
    if removedPlate.isDefault then
      match updatedPlates with
      | [] => []
      | p :: rest => { p with isDefault := true } :: rest
    else updatedPlates
  | none => updatedPlates

/-- `setDefaultPlate` from `LicensePlateManager`: marks exactly the plates
whose id matches as default. -/
def setDefaultPlate (licensePlates : List LicensePlate) (plateId : String) :
    List LicensePlate :=
  licensePlates.map (fun p => { p with isDefault := p.id == plateId })

/-- The intended invariant: a non-empty plate list has exactly one default
plate. -/
abbrev oneDefault (plates : List LicensePlate) : Prop :=
  plates ≠ [] → plates.countP (fun p => p.isDefault) = 1

theorem countP_id_one (pid : String) (l : List LicensePlate)
    (hnd : (l.map (fun p => p.id)).Nodup) (hmem : ∃ p ∈ l, p.id = pid) :
    l.countP (fun p => p.id == pid) = 1 := by
  induction l with
  | nil =>
    obtain ⟨p, hp, _⟩ := hmem
    cases hp
  | cons a t ih =>
    rw [List.map_cons, List.nodup_cons] at hnd
    rw [List.countP_cons]
    by_cases ha : a.id = pid
    · rw [if_pos (beq_iff_eq.mpr ha)]
      have hz : t.countP (fun p => p.id == pid) = 0 := by
        apply List.countP_eq_zero.mpr
        intro p hp hc
        apply hnd.1
        rw [ha, ← beq_iff_eq.mp hc]
        exact List.mem_map_of_mem (fun q => q.id) hp
      rw [hz]
    · rw [if_neg (fun hc => ha (beq_iff_eq.mp hc)), Nat.add_zero]
      obtain ⟨p, hp, hpid⟩ := hmem
      rcases List.mem_cons.mp hp with h | h
      · exact absurd hpid (h ▸ ha)
      · exact ih hnd.2 ⟨p, h, hpid⟩

theorem filter_ne_of_no_match (pid : String) (t : List LicensePlate)
    (h : ∀ p ∈ t, p.id ≠ pid) :
    t.filter (fun p => !(p.id == pid)) = t := by
  apply List.filter_eq_self.mpr
  intro p hp
  simp [h p hp]

theorem countP_default_remove (pid : String) (l : List LicensePlate)
    (hnd : (l.map (fun p => p.id)).Nodup) (r : LicensePlate)
    (hfind : l.find? (fun p => p.id == pid) = some r) :
    l.countP (fun p => p.isDefault) =
      (l.filter (fun p => !(p.id == pid))).countP (fun p => p.isDefault) +
        (if r.isDefault then 1 else 0) := by
  induction l with
  | nil => cases hfind
  | cons a t ih =>
    rw [List.map_cons, List.nodup_cons] at hnd
    by_cases ha : a.id = pid
    · have hab : (a.id == pid) = true := beq_iff_eq.mpr ha
      simp only [List.find?_cons, hab] at hfind
      injection hfind with har
      subst har
      have ht : t.filter (fun p => !(p.id == pid)) = t := by
        apply filter_ne_of_no_match
        intro p hp hpe
        apply hnd.1
        rw [ha, ← hpe]
        exact List.mem_map_of_mem (fun q => q.id) hp
      rw [List.filter_cons_of_neg (by simp [ha]), ht, List.countP_cons]
    · have hab : (a.id == pid) = false := by simp [ha]
      simp only [List.find?_cons, hab] at hfind
      have hrec := ih hnd.2 hfind
      rw [List.filter_cons_of_pos (by simp [hab]), List.countP_cons, List.countP_cons, hrec]
      omega

theorem addLicensePlate_oneDefault (plates : List LicensePlate)
    (newId : String) (pn st : JStr) (hinv : oneDefault plates) :
    ∀ result, addLicensePlate plates newId pn st = some result →
      oneDefault result := by
  intro result hres
  simp only [addLicensePlate] at hres
  split at hres
  · cases hres
  · split at hres
    · cases hres
    · cases hres
      intro _
      rw [List.countP_append]
      by_cases hp : plates = []
      · subst hp
        simp [List.countP_cons]
      · rw [hinv hp]
        have hlen : (plates.length == 0) = false := by
          simp [List.length_eq_zero, hp]
        simp [List.countP_cons, hlen]

theorem removeLicensePlate_oneDefault (plates : List LicensePlate)
    (plateId : String) (hnd : (plates.map (fun p => p.id)).Nodup)
    (hinv : oneDefault plates) :
    oneDefault (removeLicensePlate plates plateId) := by
  cases hfind : plates.find? (fun p => p.id == plateId) with
  | none =>
    have hself : plates.filter (fun p => !(p.id == plateId)) = plates := by
      apply filter_ne_of_no_match
      intro p hp hpe
      have := List.find?_eq_none.mp hfind p hp
      exact this (beq_iff_eq.mpr hpe)
    have hres : removeLicensePlate plates plateId = plates := by
      simp only [removeLicensePlate, hfind]
      exact hself
    rw [hres]
    exact hinv
  | some removedPlate =>
    have hne : plates ≠ [] := by
      intro h
      rw [h] at hfind
      simp at hfind
    have hsplit := countP_default_remove plateId plates hnd removedPlate hfind
    rw [hinv hne] at hsplit
    by_cases hd : removedPlate.isDefault = true
    · rw [if_pos hd] at hsplit
      cases hupd : plates.filter (fun p => !(p.id == plateId)) with
      | nil =>
        have hres : removeLicensePlate plates plateId = [] := by
          simp only [removeLicensePlate, hfind, hd, if_true, hupd]
        rw [hres]
        intro hcon
        exact absurd rfl hcon
      | cons p rest =>
        have hres : removeLicensePlate plates plateId =
            { p with isDefault := true } :: rest := by
          simp only [removeLicensePlate, hfind, hd, if_true, hupd]
        rw [hupd, List.countP_cons] at hsplit
        rw [hres]
        intro _
        rw [List.countP_cons]
        simp only [if_pos]
        omega
    · have hd' : removedPlate.isDefault = false := by
        cases hb : removedPlate.isDefault
        · rfl
        · exact absurd hb hd
      rw [if_neg hd] at hsplit
      have hres : removeLicensePlate plates plateId =
          plates.filter (fun p => !(p.id == plateId)) := by
        simp only [removeLicensePlate, hfind, hd']
        rfl
      rw [hres]
      intro _
      omega

theorem setDefaultPlate_oneDefault (plates : List LicensePlate)
    (plateId : String) (hnd : (plates.map (fun p => p.id)).Nodup)
    (hmem : ∃ p ∈ plates, p.id = plateId) :
    oneDefault (setDefaultPlate plates plateId) := by
  intro _
  simp only [setDefaultPlate]
  rw [List.countP_map]
  exact countP_id_one plateId plates hnd hmem

/-- Claim C7 — from a state where a non-empty plate list has exactly one
default plate, each license-plate operation preserves the invariant: a
successful add keeps exactly one default (the new plate is default only when
the list was empty), removal keeps exactly one default (removing the default
plate promotes exactly the first remaining plate), and setting a default on
an existing plate id keeps exactly one default. -/
theorem licensePlates_default_invariant (plates : List LicensePlate)
    (plateId newId : String) (pn st : JStr)
    (hnd : (plates.map (fun p => p.id)).Nodup) (hinv : oneDefault plates) :
    (∀ result, addLicensePlate plates newId pn st = some result →
        oneDefault result) ∧
      oneDefault (removeLicensePlate plates plateId) ∧
      ((∃ p ∈ plates, p.id = plateId) → oneDefault (setDefaultPlate plates plateId)) :=
  ⟨addLicensePlate_oneDefault plates newId pn st hinv,
    removeLicensePlate_oneDefault plates plateId hnd hinv,
    fun hmem => setDefaultPlate_oneDefault plates plateId hnd hmem⟩

/-- A default sample plate `ABC123` (`CA`). -/
def plateA : LicensePlate :=
  { id := "1", plateNumber := [65, 66, 67, 49, 50, 51], state := [67, 65],
    isDefault := true }

/-- A non-default sample plate `XYZ7` (`NY`). -/
def plateB : LicensePlate :=
  { id := "2", plateNumber := [88, 89, 90, 55], state := [78, 89],
    isDefault := false }

/-- Witness for C7: on the two-plate sample list (`plateA` default), adding a
plate, removing the default plate (which promotes the remaining one), and
setting plate `1` as default each leave exactly one default plate. -/
theorem licensePlates_default_invariant_witness :
    (∀ result, addLicensePlate [plateA, plateB] "3" [74, 75, 76, 49] [84, 88] =
        some result → oneDefault result) ∧
      oneDefault (removeLicensePlate [plateA, plateB] "1") ∧
      oneDefault (setDefaultPlate [plateA, plateB] "1") := by
  have hmain := licensePlates_default_invariant [plateA, plateB] "1" "3"
    [74, 75, 76, 49] [84, 88] (by decide) (by decide)
  exact ⟨hmain.1, hmain.2.1, hmain.2.2 ⟨plateA, List.mem_cons_self plateA [plateB], rfl⟩⟩

end ParkPal
